import Mathlib

/-!
Shallow embedding of `ansible-agent` (src/ansible_agent/app.py): the hostname
sanitizer, the AWX controller client (`trigger_awx_job`), the auth-header
builder (`get_awx_auth_headers`), the `/provision` request handler, and a
spec-modelled fixed-window rate limiter (the flask-limiter decorators wrap
the endpoint; the library itself is outside the repository).

Machine strings are Lean `String`s handled through their `List Char` data;
character classes are expressed on Unicode code points (`Char.toNat`), which
is what Python's `re` sees.  `.lower()` is modelled by `Char.toLower`
(ASCII A-Z mapping, as the hostname character classes only involve ASCII),
and `.strip()` by dropping Python's ASCII whitespace from both ends.
-/

set_option maxRecDepth 40000

namespace AnsibleAgent

/-- Process configuration (the `Config` class; env-derived fields are
`Option String`: `os.getenv` yields `None` when unset). -/
structure Config where
  AWX_API_ENDPOINT : Option String
  AWX_USERNAME : Option String
  AWX_PASSWORD : Option String
  AWX_TOKEN : Option String
  AWX_TEMPLATE_NAME : Option String
  AWX_WORKFLOW_NAME : Option String
  MAX_HOSTNAME_LENGTH : Nat
  MIN_HOSTNAME_LENGTH : Nat
deriving DecidableEq

/-- Default configuration: no AWX settings, default hostname length bounds
(`MAX_HOSTNAME_LENGTH=253`, `MIN_HOSTNAME_LENGTH=1`). -/
def defaultConfig : Config :=
  { AWX_API_ENDPOINT := none
    AWX_USERNAME := none
    AWX_PASSWORD := none
    AWX_TOKEN := none
    AWX_TEMPLATE_NAME := none
    AWX_WORKFLOW_NAME := none
    MAX_HOSTNAME_LENGTH := 253
    MIN_HOSTNAME_LENGTH := 1 }

/-- Python truthiness of an optional string: `None` and `""` are falsy. -/
def truthy : Option String → Bool
  | none => false
  | some s => !s.data.isEmpty

/-- Python `f"{x}"` of an optional string: `None` prints as `"None"`. -/
def pyStr : Option String → String
  | none => "None"
  | some s => s

/-- Python `str.strip()` whitespace, ASCII part: space, \t, \n, \r, \x0b, \x0c. -/
def isPySpace (c : Char) : Bool :=
  c.toNat = 32 || c.toNat = 9 || c.toNat = 10 || c.toNat = 13 || c.toNat = 11 || c.toNat = 12

/-- Drop whitespace from both ends of a character list (`str.strip()`). -/
def stripList (l : List Char) : List Char :=
  ((l.dropWhile isPySpace).reverse.dropWhile isPySpace).reverse

/-- `str.lower()` on the character list (ASCII `A-Z` mapping). -/
def lowerList (l : List Char) : List Char :=
  l.map Char.toLower

/-- `str.strip()`. -/
def pyStrip (s : String) : String := ⟨stripList s.data⟩

/-- `str.lower()`. -/
def pyLower (s : String) : String := ⟨lowerList s.data⟩

/-- Regex class `[a-zA-Z0-9]` on code points. -/
def isAlnumC (c : Char) : Bool :=
  (97 ≤ c.toNat && c.toNat ≤ 122) || (65 ≤ c.toNat && c.toNat ≤ 90) ||
    (48 ≤ c.toNat && c.toNat ≤ 57)

/-- Regex class `[a-zA-Z0-9\-]` (label interior characters). -/
def labelChar (c : Char) : Bool :=
  isAlnumC c || c.toNat = 45

/-- Regex class `[a-zA-Z0-9\.-]` used by the suspicious-character check. -/
def classOk (c : Char) : Bool :=
  isAlnumC c || c.toNat = 46 || c.toNat = 45

/-- Class `[a-z0-9.-]` (the spec's post-lowercasing character set). -/
def lowerClassOk (c : Char) : Bool :=
  (97 ≤ c.toNat && c.toNat ≤ 122) || (48 ≤ c.toNat && c.toNat ≤ 57) ||
    c.toNat = 46 || c.toNat = 45

/-- Head character is alphanumeric (false on the empty list). -/
def headAlnum : List Char → Bool
  | [] => false
  | c :: _ => isAlnumC c

/-- One hostname label matches `[a-zA-Z0-9]([a-zA-Z0-9\-]{0,61}[a-zA-Z0-9])?`:
nonempty, at most 63 characters, alphanumeric first and last characters,
interior characters alphanumeric or hyphen. -/
def labelOk (l : List Char) : Bool :=
  headAlnum l && headAlnum l.reverse && l.length ≤ 63 && l.all labelChar

/-- Split on `'.'` (code point 46); always returns a nonempty list of
(possibly empty) label candidates, so `"a..b"` yields an empty middle label. -/
def splitOnDot : List Char → List (List Char)
  | [] => [[]]
  | c :: rest =>
    match splitOnDot rest with
    | [] => [[]]
    | h :: t => if c.toNat = 46 then [] :: h :: t else (c :: h) :: t

/-- Full match of `hostname_pattern`
`^[a-zA-Z0-9]([a-zA-Z0-9\-]{0,61}[a-zA-Z0-9])?(\.[a-zA-Z0-9]([a-zA-Z0-9\-]{0,61}[a-zA-Z0-9])?)*$`:
a dot-separated list of labels each matching the label grammar. -/
def rfc1123Ok (l : List Char) : Bool :=
  (splitOnDot l).all labelOk

/-- `re.search(r"\.\.+", ...)`: two consecutive dots occur somewhere. -/
def hasDotDot : List Char → Bool
  | c1 :: c2 :: rest => (c1.toNat = 46 && c2.toNat = 46) || hasDotDot (c2 :: rest)
  | _ => false

/-- Head character is a hyphen (`re.search(r"^-", ...)`). -/
def headHyphen : List Char → Bool
  | [] => false
  | c :: _ => c.toNat = 45

/-- The `suspicious_patterns` loop: consecutive dots, leading hyphen,
trailing hyphen, or any character outside `[a-zA-Z0-9\.-]`. -/
def suspicious (l : List Char) : Bool :=
  hasDotDot l || headHyphen l || headHyphen l.reverse || l.any (fun c => !classOk c)

/-- `sanitize_hostname`: reject falsy input, strip and lowercase, check the
configured length bounds, the RFC 1123 grammar, then the suspicious patterns;
return the normalized hostname on success. -/
def sanitize_hostname (cfg : Config) (hostname : Option String) : Option String :=
  match hostname with
  | none => none
  | some s =>
    if s.data.isEmpty then none
    else
      let h : String := ⟨lowerList (stripList s.data)⟩
      if h.data.length < cfg.MIN_HOSTNAME_LENGTH || cfg.MAX_HOSTNAME_LENGTH < h.data.length then
        none
      else if !rfc1123Ok h.data then none
      else if suspicious h.data then none
      else some h

/-- UTF-8 encoding of one scalar value (Python `str.encode()` byte layout). -/
def utf8Bytes (c : Char) : List Nat :=
  let n := c.toNat
  if n < 128 then [n]
  else if n < 2048 then [192 + n / 64, 128 + n % 64]
  else if n < 65536 then [224 + n / 4096, 128 + (n / 64) % 64, 128 + n % 64]
  else [240 + n / 262144, 128 + (n / 4096) % 64, 128 + (n / 64) % 64, 128 + n % 64]

/-- UTF-8 bytes of a string (`str.encode()`). -/
def strBytes (s : String) : List Nat :=
  (s.data.map utf8Bytes).flatten

/-- Standard base64 alphabet digit. -/
def b64Char (n : Nat) : Char :=
  if n < 26 then Char.ofNat (65 + n)
  else if n < 52 then Char.ofNat (97 + (n - 26))
  else if n < 62 then Char.ofNat (48 + (n - 52))
  else if n = 62 then '+'
  else '/'

/-- Encode one final chunk of 0-3 bytes (with `=` padding). -/
def b64Chunk : List Nat → List Char
  | [b1] => [b64Char (b1 / 4), b64Char (b1 % 4 * 16), '=', '=']
  | [b1, b2] => [b64Char (b1 / 4), b64Char (b1 % 4 * 16 + b2 / 16), b64Char (b2 % 16 * 4), '=']
  | b1 :: b2 :: b3 :: _ =>
    [b64Char (b1 / 4), b64Char (b1 % 4 * 16 + b2 / 16), b64Char (b2 % 16 * 4 + b3 / 64),
      b64Char (b3 % 64)]
  | [] => []

/-- `base64.b64encode` over a byte list. -/
def b64Encode : List Nat → List Char
  | b1 :: b2 :: b3 :: rest => b64Chunk [b1, b2, b3] ++ b64Encode rest
  | rest => b64Chunk rest

/-- `get_awx_auth_headers`: bearer token when `AWX_TOKEN` is truthy, else
HTTP Basic from `base64(f"{AWX_USERNAME}:{AWX_PASSWORD}".encode())`. -/
def get_awx_auth_headers (cfg : Config) : List (String × String) :=
  if truthy cfg.AWX_TOKEN then
    [("Authorization", "Bearer " ++ pyStr cfg.AWX_TOKEN)]
  else
    [("Authorization",
      "Basic " ++
        (⟨b64Encode (strBytes (pyStr cfg.AWX_USERNAME ++ ":" ++ pyStr cfg.AWX_PASSWORD))⟩ :
          String))]

/-- Outcome of one outbound `requests` call, from the exception taxonomy of
`trigger_awx_job`'s `try` block: a parsed 2xx body, `requests.exceptions.Timeout`,
any other `requests.exceptions.RequestException` (including the `HTTPError`
that `raise_for_status` raises on a non-2xx response), or any other
exception (`except Exception`), each carrying its `str(e)` text. -/
inductive CallResult (α : Type) where
  | ok (body : α)
  | timeout
  | reqError (detail : String)
  | unexpected (detail : String)
deriving DecidableEq

/-- The remote AWX controller as seen through the two outbound calls:
the resolve GET yields the list of `id`s in the response's `results`,
the launch POST yields the optional `id` of the created job. -/
structure AwxEnv where
  resolve : CallResult (List Nat)
  launch : CallResult (Option Nat)

/-- Outbound calls performed, in order (for the no-launch / no-retry claims). -/
inductive CallTag where
  | resolveGet
  | launchPost
deriving DecidableEq

/-- `trigger_awx_job`'s returned dict: `{'success': True, 'job_id', 'job_type',
'hostname'}` or `{'success': False, 'error'}`. -/
inductive JobResult where
  | ok (job_id : Option Nat) (job_type : String) (hostname : String)
  | fail (error : String)
deriving DecidableEq

/-- `trigger_awx_job`: resolve the configured template (or else workflow) by
name, then launch it.  Returns `none` (Python `None`: the function falls off
the end of the `try` block with no `return`) when neither name is truthy,
together with the trace of outbound calls performed. -/
def trigger_awx_job (cfg : Config) (env : AwxEnv) (hostname : String) :
    Option JobResult × List CallTag :=
  if truthy cfg.AWX_TEMPLATE_NAME then
    match env.resolve with
    | .timeout => (some (.fail "AWX API timeout"), [.resolveGet])
    | .reqError e => (some (.fail ("AWX API error: " ++ e)), [.resolveGet])
    | .unexpected e => (some (.fail ("Unexpected error: " ++ e)), [.resolveGet])
    | .ok results =>
      match results with
      | [] => (some (.fail "Template not found"), [.resolveGet])
      | _tid :: _ =>
        match env.launch with
        | .timeout => (some (.fail "AWX API timeout"), [.resolveGet, .launchPost])
        | .reqError e => (some (.fail ("AWX API error: " ++ e)), [.resolveGet, .launchPost])
        | .unexpected e => (some (.fail ("Unexpected error: " ++ e)), [.resolveGet, .launchPost])
        | .ok jid => (some (.ok jid "template" hostname), [.resolveGet, .launchPost])
  else if truthy cfg.AWX_WORKFLOW_NAME then
    match env.resolve with
    | .timeout => (some (.fail "AWX API timeout"), [.resolveGet])
    | .reqError e => (some (.fail ("AWX API error: " ++ e)), [.resolveGet])
    | .unexpected e => (some (.fail ("Unexpected error: " ++ e)), [.resolveGet])
    | .ok results =>
      match results with
      | [] => (some (.fail "Workflow not found"), [.resolveGet])
      | _wid :: _ =>
        match env.launch with
        | .timeout => (some (.fail "AWX API timeout"), [.resolveGet, .launchPost])
        | .reqError e => (some (.fail ("AWX API error: " ++ e)), [.resolveGet, .launchPost])
        | .unexpected e => (some (.fail ("Unexpected error: " ++ e)), [.resolveGet, .launchPost])
        | .ok jid => (some (.ok jid "workflow" hostname), [.resolveGet, .launchPost])
  else (none, [])

/-- JSON response bodies of the `/provision` route (and the 429 handler). -/
inductive RespBody where
  | errBody (msg : String)
  | rateLimited
  | failureBody (hostname error : String)
  | successBody (hostname : String) (job_id : Option Nat) (job_type : Option String)
      (message : String)
deriving DecidableEq

/-- The `provision` handler body, given the extracted `hostname` field
(`None` models both a missing field and a non-JSON/form miss).  A `None`
result from `trigger_awx_job` makes `result['success']` raise `TypeError`,
which the outermost `except Exception` turns into the generic 500. -/
def provision (cfg : Config) (env : AwxEnv) (hostname? : Option String) : Nat × RespBody :=
  match hostname? with
  | none => (400, .errBody "hostname parameter is required")
  | some s =>
    if s.data.isEmpty then (400, .errBody "hostname parameter is required")
    else
      match sanitize_hostname cfg (some s) with
      | none => (400, .errBody "Invalid hostname format")
      | some sh =>
        match (trigger_awx_job cfg env sh).1 with
        | none => (500, .errBody "Internal server error")
        | some (.ok jid jt _) =>
          (200, .successBody sh jid (some jt) ("Job triggered successfully for " ++ sh))
        | some (.fail e) => (500, .failureBody sh e)

/-- Modelled from the spec: one rate-limit quota, `n` admits per fixed window
of `window` time units (flask-limiter's limit strings such as
`"1 per 5 minutes"`; the library itself is not part of the repository). -/
structure LimitSpec where
  n : Nat
  window : Nat
deriving DecidableEq

/-- Modelled from the spec: fixed-window counter step for one key's entry
`(windowIndex, count)`.  Admits iff the count inside the current window is
below `n`; an admit increments the count (the count resets when the window
rolls over). -/
def winStep (n w : Nat) (entry : Option (Nat × Nat)) (t : Nat) : Bool × (Nat × Nat) :=
  let idx := t / w
  let c0 := match entry with
    | some (i, c) => if i = idx then c else 0
    | none => 0
  if c0 < n then (true, (idx, c0 + 1)) else (false, (idx, c0))

/-- Run the fixed-window counter over a list of request times, returning the
final entry and the per-request admit decisions (state changes only on admit,
mirroring `rlCheck`). -/
def winRun (n w : Nat) : List Nat → Option (Nat × Nat) → Option (Nat × Nat) × List Bool
  | [], e => (e, [])
  | t :: ts, e =>
    let r := winStep n w e t
    let e2 := if r.1 then some r.2 else e
    let rest := winRun n w ts e2
    (rest.1, r.1 :: rest.2)

/-- Number of admitted requests that fall inside window `j`. -/
def winAdmits (n w : Nat) : List Nat → Option (Nat × Nat) → Nat → Nat
  | [], _, _ => 0
  | t :: ts, e, j =>
    let r := winStep n w e t
    let e2 := if r.1 then some r.2 else e
    (if r.1 && decide (t / w = j) then 1 else 0) + winAdmits n w ts e2 j

/-- Per-limit store: key (client address, or the literal `"global"`) to
window entry. -/
def RLStore := List (String × Nat × Nat)

/-- Look up a key's entry. -/
def lookupKey (st : RLStore) (k : String) : Option (Nat × Nat) :=
  match st.find? (fun p => p.1 = k) with
  | some p => some p.2
  | none => none

/-- Write a key's entry. -/
def setKey (st : RLStore) (k : String) (v : Nat × Nat) : RLStore :=
  match st with
  | [] => [(k, v)]
  | p :: rest => if p.1 = k then (k, v) :: rest else p :: setKey rest k v

/-- Modelled from the spec: check-and-consume for one limit and one key.
The store is updated only when the request is admitted. -/
def rlCheck (spec : LimitSpec) (st : RLStore) (k : String) (t : Nat) : Bool × RLStore :=
  let r := winStep spec.n spec.window (lookupKey st k) t
  if r.1 then (true, setKey st k r.2) else (false, st)

/-- Rate-limiter state of the server: the per-IP store and the global store
(two independent quotas, per the two `limiter.limit` decorators). -/
structure SrvState where
  perIP : RLStore
  globalStore : RLStore

/-- Modelled from the spec: the `/provision` route as wrapped by the two
rate-limit decorators.  Both quotas are checked before the handler body runs;
a request is admitted only if both have capacity, admission consumes one unit
from both, and a rejected request is answered by `ratelimit_handler` (429). -/
def handleProvision (cfg : Config) (perIP glob : LimitSpec) (env : AwxEnv)
    (st : SrvState) (t : Nat) (ip : String) (hostname? : Option String) :
    SrvState × Nat × RespBody :=
  let r1 := rlCheck perIP st.perIP ip t
  let r2 := rlCheck glob st.globalStore "global" t
  if r1.1 && r2.1 then
    let resp := provision cfg env hostname?
    (⟨r1.2, r2.2⟩, resp.1, resp.2)
  else
    (st, 429, .rateLimited)

/-- One incoming request: arrival time, client address, extracted hostname. -/
structure Req where
  t : Nat
  ip : String
  hostname? : Option String

/-- Run a sequence of requests through the wrapped endpoint, collecting the
HTTP status codes. -/
def runSeq (cfg : Config) (perIP glob : LimitSpec) (env : AwxEnv) :
    List Req → SrvState → SrvState × List Nat
  | [], st => (st, [])
  | r :: rs, st =>
    let out := handleProvision cfg perIP glob env st r.t r.ip r.hostname?
    let rest := runSeq cfg perIP glob env rs out.1
    (rest.1, out.2.1 :: rest.2)

/-- Count of key `k`'s admits inside the window containing time `t`. -/
def curCount (st : RLStore) (k : String) (w t : Nat) : Nat :=
  match lookupKey st k with
  | some (i, c) => if i = t / w then c else 0
  | none => 0

/-- A configuration in template mode with Basic-auth credentials and default
length bounds. -/
def templateConfig : Config :=
  { defaultConfig with
    AWX_API_ENDPOINT := some "https://awx.example.com"
    AWX_USERNAME := some "u"
    AWX_PASSWORD := some "p"
    AWX_TEMPLATE_NAME := some "prov-template" }

/-- A controller environment in which both calls succeed. -/
def happyEnv : AwxEnv :=
  { resolve := .ok [5], launch := .ok (some 7) }

theorem toNat_ofNat_valid (n : Nat) (h : n.isValidChar) : (Char.ofNat n).toNat = n := by
  rw [Char.ofNat, dif_pos h]
  rfl

theorem toLower_toNat (c : Char) :
    (Char.toLower c).toNat =
      if 65 ≤ c.toNat ∧ c.toNat ≤ 90 then c.toNat + 32 else c.toNat := by
  by_cases h : 65 ≤ c.toNat ∧ c.toNat ≤ 90
  · rw [if_pos h]
    rw [Char.toLower, if_pos ⟨h.1, h.2⟩]
    exact toNat_ofNat_valid _ (Or.inl (by omega))
  · rw [if_neg h]
    rw [Char.toLower, if_neg h]

theorem toLower_not_upper (c : Char) :
    ¬(65 ≤ (Char.toLower c).toNat ∧ (Char.toLower c).toNat ≤ 90) := by
  rw [toLower_toNat]
  by_cases h : 65 ≤ c.toNat ∧ c.toNat ≤ 90
  · rw [if_pos h]; omega
  · rw [if_neg h]; omega

theorem toLower_idem (c : Char) : Char.toLower (Char.toLower c) = Char.toLower c := by
  have h := toLower_not_upper c
  conv_lhs => rw [Char.toLower]
  rw [if_neg h]

theorem classOk_not_pySpace {c : Char} (h : classOk c = true) : isPySpace c = false := by
  simp only [classOk, isAlnumC, Bool.or_eq_true, Bool.and_eq_true, decide_eq_true_eq] at h
  simp only [isPySpace, Bool.or_eq_false_iff, decide_eq_false_iff_not]
  omega

theorem classOk_lowerClassOk {c : Char} (h : classOk c = true)
    (hu : ¬(65 ≤ c.toNat ∧ c.toNat ≤ 90)) : lowerClassOk c = true := by
  simp only [classOk, isAlnumC, Bool.or_eq_true, Bool.and_eq_true, decide_eq_true_eq] at h
  simp only [lowerClassOk, Bool.or_eq_true, Bool.and_eq_true, decide_eq_true_eq]
  omega

theorem dropWhile_eq_self_of_all {p : Char → Bool} {l : List Char}
    (h : ∀ c ∈ l, p c = false) : l.dropWhile p = l := by
  cases l with
  | nil => rfl
  | cons c rest =>
    rw [List.dropWhile_cons, h c (List.mem_cons_self c rest)]
    simp

theorem stripList_eq_self {l : List Char} (h : ∀ c ∈ l, isPySpace c = false) :
    stripList l = l := by
  unfold stripList
  rw [dropWhile_eq_self_of_all h]
  rw [dropWhile_eq_self_of_all (fun c hc => h c (List.mem_reverse.mp hc))]
  exact List.reverse_reverse l

theorem lowerList_idem (l : List Char) : lowerList (lowerList l) = lowerList l := by
  unfold lowerList
  rw [List.map_map]
  exact List.map_congr_left fun c _ => toLower_idem c

/-- Successful sanitization characterized: the result is the stripped,
lowercased input, and all validation checks pass on it. -/
theorem sanitize_some_iff (cfg : Config) (s h : String) :
    sanitize_hostname cfg (some s) = some h ↔
      s.data.isEmpty = false ∧
      h = (⟨lowerList (stripList s.data)⟩ : String) ∧
      cfg.MIN_HOSTNAME_LENGTH ≤ h.data.length ∧
      h.data.length ≤ cfg.MAX_HOSTNAME_LENGTH ∧
      rfc1123Ok h.data = true ∧
      suspicious h.data = false := by
  simp only [sanitize_hostname]
  by_cases h1 : s.data.isEmpty
  · simp [h1]
  · simp only [h1, Bool.false_eq_true, if_false]
    by_cases h2 : (lowerList (stripList s.data)).length < cfg.MIN_HOSTNAME_LENGTH ∨
        cfg.MAX_HOSTNAME_LENGTH < (lowerList (stripList s.data)).length
    · rw [if_pos (by simpa using h2)]
      constructor
      · intro hn; exact absurd hn (by simp)
      · rintro ⟨-, rfl, hmin, hmax, -⟩
        exact absurd h2 (by push_neg; exact ⟨by simpa using hmin, by simpa using hmax⟩)
    · rw [if_neg (by simpa using h2)]
      push_neg at h2
      by_cases h3 : rfc1123Ok (lowerList (stripList s.data)) = true
      · simp only [h3, Bool.not_true, Bool.false_eq_true, if_false]
        by_cases h4 : suspicious (lowerList (stripList s.data)) = true
        · simp only [h4, if_true]
          constructor
          · intro hn; exact absurd hn (by simp)
          · rintro ⟨-, rfl, -, -, -, hs⟩
            simp only [String.data] at hs
            rw [hs] at h4
            exact absurd h4 (by simp)
        · simp only [h4, if_false]
          constructor
          · rintro hn
            injection hn with hn
            refine ⟨trivial, hn.symm, ?_, ?_, ?_, ?_⟩
            · rw [← hn]; exact h2.1
            · rw [← hn]; exact h2.2
            · rw [← hn]; exact h3
            · rw [← hn]; simpa using h4
          · rintro ⟨-, rfl, -, -, -, -⟩; rfl
      · simp only [Bool.not_eq_true] at h3
        simp only [h3, Bool.not_false, if_true]
        constructor
        · intro hn; exact absurd hn (by simp)
        · rintro ⟨-, rfl, -, -, hr, -⟩
          simp only [String.data] at hr
          rw [hr] at h3
          exact absurd h3 (by simp)

theorem suspicious_false_classOk {l : List Char} (h : suspicious l = false) :
    ∀ c ∈ l, classOk c = true := by
  simp only [suspicious, Bool.or_eq_false_iff, List.any_eq_false] at h
  intro c hc
  have := h.2 c hc
  simpa using this

/-- A successfully sanitized hostname is a fixed point of the sanitizer. -/
theorem sanitize_fixedpoint (cfg : Config) (s h : String)
    (hs : sanitize_hostname cfg (some s) = some h) :
    sanitize_hostname cfg (some h) = some h := by
  obtain ⟨-, hval, hmin, hmax, hrfc, hsusp⟩ := (sanitize_some_iff cfg s h).mp hs
  have hclass : ∀ c ∈ h.data, classOk c = true := suspicious_false_classOk hsusp
  have hne : h.data.isEmpty = false := by
    cases hd : h.data with
    | nil => rw [hd] at hrfc; exact absurd hrfc (by decide)
    | cons a t => simp
  have hstrip : stripList h.data = h.data :=
    stripList_eq_self fun c hc => classOk_not_pySpace (hclass c hc)
  have hlower : lowerList h.data = h.data := by
    have hdata : h.data = lowerList (stripList s.data) := by rw [hval]
    rw [hdata]
    exact lowerList_idem _
  have hfix : (⟨lowerList (stripList h.data)⟩ : String) = h := by
    rw [hstrip, hlower]
  exact (sanitize_some_iff cfg h h).mpr
    ⟨hne, hfix.symm, hmin, hmax, hrfc, hsusp⟩

/-- If a prefix string disagrees with the first characters of a literal, no
extension of the prefix equals the literal. -/
theorem append_ne_of_take_ne (pre lit : String)
    (h : lit.data.take pre.data.length ≠ pre.data) (e : String) : pre ++ e ≠ lit := by
  intro heq
  apply h
  have hd : pre.data ++ e.data = lit.data := by
    rw [← String.data_append, heq]
  rw [← hd, List.take_left]

/-- Dispatching a sanitized hostname: the `/provision` response is determined
by `trigger_awx_job`'s result. -/
theorem provision_dispatch (cfg : Config) (env : AwxEnv) (s sh : String)
    (hs : sanitize_hostname cfg (some s) = some sh) :
    provision cfg env (some s) =
      match (trigger_awx_job cfg env sh).1 with
      | none => (500, .errBody "Internal server error")
      | some (.ok jid jt _) =>
        (200, .successBody sh jid (some jt) ("Job triggered successfully for " ++ sh))
      | some (.fail e) => (500, .failureBody sh e) := by
  have hne : s.data.isEmpty = false := ((sanitize_some_iff cfg s sh).mp hs).1
  simp only [provision, hne, Bool.false_eq_true, if_false, hs]

/-- The trace of outbound calls of one `trigger_awx_job` run is empty, just
the resolve GET, or the resolve GET followed by the launch POST. -/
theorem trigger_trace_cases (cfg : Config) (env : AwxEnv) (h : String) :
    (trigger_awx_job cfg env h).2 = [] ∨
    (trigger_awx_job cfg env h).2 = [.resolveGet] ∨
    (trigger_awx_job cfg env h).2 = [.resolveGet, .launchPost] := by
  unfold trigger_awx_job
  by_cases ht : truthy cfg.AWX_TEMPLATE_NAME
  · simp only [ht, if_true]
    cases env.resolve with
    | ok rs =>
      cases rs with
      | nil => simp
      | cons a t => cases env.launch <;> simp
    | timeout => simp
    | reqError e => simp
    | unexpected e => simp
  · by_cases hw : truthy cfg.AWX_WORKFLOW_NAME
    · simp only [ht, hw, Bool.false_eq_true, if_false, if_true]
      cases env.resolve with
      | ok rs =>
        cases rs with
        | nil => simp
        | cons a t => cases env.launch <;> simp
      | timeout => simp
      | reqError e => simp
      | unexpected e => simp
    · simp [ht, hw]

/-- Claim C4 as stated is false: the sanitizer trims before it validates, so a
string whose lowercasing (without trimming) contains a character outside
`[a-z0-9.-]` can still sanitize successfully.  Concretely `"abc "` lowercased
contains a space, yet `sanitize_hostname` returns `"abc"`, not `null`. -/
theorem C4_counterexample :
    (lowerList (String.data "abc ")).any (fun c => !lowerClassOk c) = true ∧
    sanitize_hostname defaultConfig (some "abc ") = some "abc" := by
  decide

/-- C4 (amended): for every string that, after trimming and lowercasing,
contains at least one character outside `[a-z0-9.-]`, `sanitize_hostname`
returns `null`, under every configuration. -/
theorem C4_bad_char_rejected (cfg : Config) (s : String)
    (hbad : (lowerList (stripList s.data)).any (fun c => !lowerClassOk c) = true) :
    sanitize_hostname cfg (some s) = none := by
  cases hres : sanitize_hostname cfg (some s) with
  | none => rfl
  | some h =>
    exfalso
    obtain ⟨-, hval, -, -, -, hsusp⟩ := (sanitize_some_iff cfg s h).mp hres
    have hclass := suspicious_false_classOk hsusp
    obtain ⟨c, hc, hcbad⟩ := List.any_eq_true.mp hbad
    have hdata : h.data = lowerList (stripList s.data) := by rw [hval]
    have hcin : c ∈ h.data := by rw [hdata]; exact hc
    have hok : classOk c = true := hclass c hcin
    obtain ⟨c0, -, hc0⟩ := List.mem_map.mp hc
    have hup : ¬(65 ≤ c.toNat ∧ c.toNat ≤ 90) := by
      rw [← hc0]; exact toLower_not_upper c0
    have := classOk_lowerClassOk hok hup
    simp [this] at hcbad

/-- C4 witness: `"host name"` (inner space survives trimming) is rejected. -/
theorem C4_witness : sanitize_hostname defaultConfig (some "host name") = none :=
  C4_bad_char_rejected defaultConfig "host name" (by decide)

/-- C5: the sanitizer is idempotent (`sanitize (sanitize x) = sanitize x`, in
particular on every valid in-bounds hostname), every non-null result equals
the input trimmed of surrounding whitespace and lowercased, and the spec's
two examples hold: `"TEST.EXAMPLE.COM" ↦ "test.example.com"` and
`"  test.example.com  " ↦ "test.example.com"`. -/
theorem C5_idempotent_lowercase_trim :
    (∀ (cfg : Config) (x : Option String),
        sanitize_hostname cfg (sanitize_hostname cfg x) = sanitize_hostname cfg x) ∧
    (∀ (cfg : Config) (s h : String),
        sanitize_hostname cfg (some s) = some h → h = pyLower (pyStrip s)) ∧
    sanitize_hostname defaultConfig (some "TEST.EXAMPLE.COM") = some "test.example.com" ∧
    sanitize_hostname defaultConfig (some "  test.example.com  ") = some "test.example.com" := by
  refine ⟨?_, ?_, by decide, by decide⟩
  · intro cfg x
    cases hr : sanitize_hostname cfg x with
    | none => rfl
    | some h =>
      cases x with
      | none => exact absurd hr (by simp [sanitize_hostname])
      | some s => exact sanitize_fixedpoint cfg s h hr
  · intro cfg s h hs
    exact ((sanitize_some_iff cfg s h).mp hs).2.1

/-- C5 witness: the characterization applied at `"TEST.EXAMPLE.COM"`. -/
theorem C5_witness : ("test.example.com" : String) = pyLower (pyStrip "TEST.EXAMPLE.COM") :=
  C5_idempotent_lowercase_trim.2.1 defaultConfig "TEST.EXAMPLE.COM" "test.example.com" (by decide)

/-- C6: `sanitize_hostname` returns `null` on null input, on the empty string,
and on every input whose trimmed lowercased length is below the configured
minimum or above the configured maximum; with the default bounds 1..253, a
300-character string of `'a'` is rejected. -/
theorem C6_null_empty_length_rejected (cfg : Config) (s : String) :
    sanitize_hostname cfg none = none ∧
    sanitize_hostname cfg (some "") = none ∧
    ((lowerList (stripList s.data)).length < cfg.MIN_HOSTNAME_LENGTH ∨
        cfg.MAX_HOSTNAME_LENGTH < (lowerList (stripList s.data)).length →
      sanitize_hostname cfg (some s) = none) ∧
    sanitize_hostname defaultConfig (some ⟨List.replicate 300 'a'⟩) = none := by
  refine ⟨rfl, rfl, ?_, by decide⟩
  intro hlen
  cases hres : sanitize_hostname cfg (some s) with
  | none => rfl
  | some h =>
    exfalso
    obtain ⟨-, hval, hmin, hmax, -, -⟩ := (sanitize_some_iff cfg s h).mp hres
    have hdata : h.data = lowerList (stripList s.data) := by rw [hval]
    rw [hdata] at hmin hmax
    omega

/-- C6 witness: the 300-character `'a'` string exceeds the default maximum. -/
theorem C6_witness :
    sanitize_hostname defaultConfig (some ⟨List.replicate 300 'a'⟩) = none :=
  (C6_null_empty_length_rejected defaultConfig ⟨List.replicate 300 'a'⟩).2.2.1
    (Or.inr (by decide))

/-- Claim C1 as stated is false: an unexpected exception inside
`trigger_awx_job` is caught by its own `except Exception` handler, which puts
`f"Unexpected error: {str(e)}"` into the error field, and `/provision`
returns that field in the 500 body — the detail text IS exposed to the
caller. -/
theorem C1_counterexample :
    provision templateConfig ⟨.unexpected "secret-detail", .ok none⟩ (some "host1") =
      (500, .failureBody "host1" "Unexpected error: secret-detail") ∧
    ∃ a b : String, "Unexpected error: secret-detail" = a ++ "secret-detail" ++ b := by
  exact ⟨by decide, "Unexpected error: ", "", by decide⟩

/-- C1 (amended): an unexpected (non-timeout, non-transport) exception at
either outbound call makes `/provision` respond 500 with a body whose error
field is `"Unexpected error: <detail>"` — the detail text is contained in the
response rather than hidden (only exceptions in the handler body outside
`trigger_awx_job` get the generic `"Internal server error"`). -/
theorem C1_unexpected_detail_exposed (cfg : Config) (env : AwxEnv) (s sh d : String)
    (hs : sanitize_hostname cfg (some s) = some sh)
    (hmode : truthy cfg.AWX_TEMPLATE_NAME = true ∨
      (truthy cfg.AWX_TEMPLATE_NAME = false ∧ truthy cfg.AWX_WORKFLOW_NAME = true))
    (hstage : env.resolve = .unexpected d ∨
      (∃ i rest, env.resolve = .ok (i :: rest) ∧ env.launch = .unexpected d)) :
    provision cfg env (some s) = (500, .failureBody sh ("Unexpected error: " ++ d)) ∧
    ∃ a b : String, "Unexpected error: " ++ d = a ++ d ++ b := by
  have htr : (trigger_awx_job cfg env sh).1 = some (.fail ("Unexpected error: " ++ d)) := by
    rcases hmode with ht | ⟨ht, hw⟩
    · rcases hstage with hr | ⟨i, rest, hr, hl⟩
      · simp [trigger_awx_job, ht, hr]
      · simp [trigger_awx_job, ht, hr, hl]
    · rcases hstage with hr | ⟨i, rest, hr, hl⟩
      · simp [trigger_awx_job, ht, hw, hr]
      · simp [trigger_awx_job, ht, hw, hr, hl]
  refine ⟨?_, "Unexpected error: ", "", by simp⟩
  rw [provision_dispatch cfg env s sh hs, htr]

/-- C1 witness: the amended statement at a concrete input. -/
theorem C1_witness :
    provision templateConfig ⟨.unexpected "boom", .ok none⟩ (some "host1") =
      (500, .failureBody "host1" ("Unexpected error: " ++ "boom")) :=
  (C1_unexpected_detail_exposed templateConfig ⟨.unexpected "boom", .ok none⟩
    "host1" "host1" "boom" (by decide) (Or.inl rfl) (Or.inl rfl)).1

/-- C7: when the resolve GET returns zero results, `trigger_awx_job` returns
the `"<Kind> not found"` failure having performed only the resolve GET (no
launch POST), and `/provision` responds 500 with that error. -/
theorem C7_zero_results_not_found (cfg : Config) (env : AwxEnv) (s sh : String)
    (hres : env.resolve = .ok [])
    (hs : sanitize_hostname cfg (some s) = some sh) :
    (truthy cfg.AWX_TEMPLATE_NAME = true →
      trigger_awx_job cfg env sh = (some (.fail "Template not found"), [.resolveGet]) ∧
      provision cfg env (some s) = (500, .failureBody sh "Template not found")) ∧
    (truthy cfg.AWX_TEMPLATE_NAME = false → truthy cfg.AWX_WORKFLOW_NAME = true →
      trigger_awx_job cfg env sh = (some (.fail "Workflow not found"), [.resolveGet]) ∧
      provision cfg env (some s) = (500, .failureBody sh "Workflow not found")) := by
  constructor
  · intro ht
    have htr : trigger_awx_job cfg env sh =
        (some (.fail "Template not found"), [.resolveGet]) := by
      simp [trigger_awx_job, ht, hres]
    refine ⟨htr, ?_⟩
    rw [provision_dispatch cfg env s sh hs, htr]
  · intro ht hw
    have htr : trigger_awx_job cfg env sh =
        (some (.fail "Workflow not found"), [.resolveGet]) := by
      simp [trigger_awx_job, ht, hw, hres]
    refine ⟨htr, ?_⟩
    rw [provision_dispatch cfg env s sh hs, htr]

/-- C7 witness: template mode with an empty resolve result. -/
theorem C7_witness :
    trigger_awx_job templateConfig ⟨.ok [], .ok none⟩ "host1" =
      (some (.fail "Template not found"), [.resolveGet]) ∧
    provision templateConfig ⟨.ok [], .ok none⟩ (some "host1") =
      (500, .failureBody "host1" "Template not found") :=
  (C7_zero_results_not_found templateConfig ⟨.ok [], .ok none⟩ "host1" "host1"
    rfl (by decide)).1 rfl

/-- C8: a timeout of either outbound call yields the dedicated
`"AWX API timeout"` failure, distinct from every other failure message; a
non-timeout transport error or non-2xx response yields a failure carrying the
error detail; and no outbound call is ever retried (each call appears at most
once in the trace). -/
theorem C8_timeout_transport_no_retry (cfg : Config) (env : AwxEnv) (h : String)
    (hmode : truthy cfg.AWX_TEMPLATE_NAME = true ∨
      (truthy cfg.AWX_TEMPLATE_NAME = false ∧ truthy cfg.AWX_WORKFLOW_NAME = true)) :
    (env.resolve = .timeout →
      trigger_awx_job cfg env h = (some (.fail "AWX API timeout"), [.resolveGet])) ∧
    (∀ i rest, env.resolve = .ok (i :: rest) → env.launch = .timeout →
      trigger_awx_job cfg env h = (some (.fail "AWX API timeout"), [.resolveGet, .launchPost])) ∧
    (∀ e, env.resolve = .reqError e →
      (trigger_awx_job cfg env h).1 = some (.fail ("AWX API error: " ++ e))) ∧
    (∀ i rest e, env.resolve = .ok (i :: rest) → env.launch = .reqError e →
      (trigger_awx_job cfg env h).1 = some (.fail ("AWX API error: " ++ e))) ∧
    (∀ e, ("AWX API error: " ++ e) ≠ "AWX API timeout") ∧
    (∀ e, ("Unexpected error: " ++ e) ≠ "AWX API timeout") ∧
    ("Template not found" ≠ "AWX API timeout" ∧ "Workflow not found" ≠ "AWX API timeout") ∧
    (∀ c : CallTag, (trigger_awx_job cfg env h).2.count c ≤ 1) := by
  refine ⟨?_, ?_, ?_, ?_,
    append_ne_of_take_ne "AWX API error: " "AWX API timeout" (by decide),
    append_ne_of_take_ne "Unexpected error: " "AWX API timeout" (by decide),
    ⟨by decide, by decide⟩, ?_⟩
  · intro hr
    rcases hmode with ht | ⟨ht, hw⟩
    · simp [trigger_awx_job, ht, hr]
    · simp [trigger_awx_job, ht, hw, hr]
  · intro i rest hr hl
    rcases hmode with ht | ⟨ht, hw⟩
    · simp [trigger_awx_job, ht, hr, hl]
    · simp [trigger_awx_job, ht, hw, hr, hl]
  · intro e hr
    rcases hmode with ht | ⟨ht, hw⟩
    · simp [trigger_awx_job, ht, hr]
    · simp [trigger_awx_job, ht, hw, hr]
  · intro i rest e hr hl
    rcases hmode with ht | ⟨ht, hw⟩
    · simp [trigger_awx_job, ht, hr, hl]
    · simp [trigger_awx_job, ht, hw, hr, hl]
  · intro c
    rcases trigger_trace_cases cfg env h with h1 | h1 | h1 <;> rw [h1] <;> cases c <;> decide

/-- C8 witness: a resolve timeout in template mode. -/
theorem C8_witness :
    trigger_awx_job templateConfig ⟨.timeout, .ok none⟩ "host1" =
      (some (.fail "AWX API timeout"), [.resolveGet]) :=
  (C8_timeout_transport_no_retry templateConfig ⟨.timeout, .ok none⟩ "host1"
    (Or.inl rfl)).1 rfl

/-- C9: every outbound call's Authorization header is `Bearer <token>` when a
token is configured — regardless of username/password, so the token takes
precedence — and HTTP Basic auth built from
`base64(f"{username}:{password}")` otherwise. -/
theorem C9_auth_header (cfg : Config) :
    (∀ t, cfg.AWX_TOKEN = some t → t.data ≠ [] →
      get_awx_auth_headers cfg = [("Authorization", "Bearer " ++ t)]) ∧
    (truthy cfg.AWX_TOKEN = false →
      get_awx_auth_headers cfg =
        [("Authorization",
          "Basic " ++
            (⟨b64Encode (strBytes (pyStr cfg.AWX_USERNAME ++ ":" ++ pyStr cfg.AWX_PASSWORD))⟩ :
              String))]) := by
  constructor
  · intro t htok hne
    have hemp : t.data.isEmpty = false := by
      cases hd : t.data with
      | nil => exact absurd hd hne
      | cons a l => rfl
    have ht : truthy (some t) = true := by
      simp [truthy, hemp]
    simp [get_awx_auth_headers, htok, ht, pyStr]
  · intro ht
    simp [get_awx_auth_headers, ht]

/-- C9 witness: token precedence over configured Basic credentials, and the
Basic header's concrete base64 for `u:p` (`dTpw`). -/
theorem C9_witness :
    get_awx_auth_headers { templateConfig with AWX_TOKEN := some "tok" } =
      [("Authorization", "Bearer tok")] ∧
    get_awx_auth_headers templateConfig = [("Authorization", "Basic dTpw")] := by
  constructor
  · have := (C9_auth_header { templateConfig with AWX_TOKEN := some "tok" }).1
      "tok" rfl (by decide)
    rw [this]
    decide
  · have := (C9_auth_header templateConfig).2 rfl
    rw [this]
    decide

/-- C10: with neither a template name nor a workflow name configured,
`trigger_awx_job` performs no outbound call and returns Python `None`, so
`/provision` with a valid hostname answers 500 with
`{"error": "Internal server error"}` (the `None` subscript raises and is
caught by the outermost handler). -/
theorem C10_no_mode_internal_error (cfg : Config) (env : AwxEnv) (s sh : String)
    (ht : truthy cfg.AWX_TEMPLATE_NAME = false)
    (hw : truthy cfg.AWX_WORKFLOW_NAME = false) :
    trigger_awx_job cfg env sh = (none, []) ∧
    (sanitize_hostname cfg (some s) = some sh →
      provision cfg env (some s) = (500, .errBody "Internal server error")) := by
  have htr : trigger_awx_job cfg env sh = (none, []) := by
    simp [trigger_awx_job, ht, hw]
  refine ⟨htr, fun hs => ?_⟩
  rw [provision_dispatch cfg env s sh hs, htr]

/-- C10 witness: the default (unconfigured) environment on hostname `host1`. -/
theorem C10_witness :
    trigger_awx_job defaultConfig happyEnv "host1" = (none, []) ∧
    provision defaultConfig happyEnv (some "host1") =
      (500, .errBody "Internal server error") := by
  have h := C10_no_mode_internal_error defaultConfig happyEnv "host1" "host1" rfl rfl
  exact ⟨h.1, h.2 (by decide)⟩

theorem lookupKey_setKey (st : RLStore) (k : String) (v : Nat × Nat) :
    lookupKey (setKey st k v) k = some v := by
  induction st with
  | nil => simp [setKey, lookupKey, List.find?]
  | cons p rest ih =>
    by_cases hp : p.1 = k
    · simp [setKey, hp, lookupKey, List.find?]
    · simp only [setKey, hp, if_false]
      simp only [lookupKey, List.find?] at ih ⊢
      rw [show (decide (p.1 = k)) = false by simp [hp]]
      exact ih

theorem curCount_setKey (st : RLStore) (k : String) (w t c : Nat) :
    curCount (setKey st k (t / w, c)) k w t = c := by
  unfold curCount
  rw [lookupKey_setKey]
  simp

theorem winStep_eq_admitted (n w : Nat) (st : RLStore) (k : String) (t : Nat)
    (hcap : curCount st k w t < n) :
    winStep n w (lookupKey st k) t = (true, (t / w, curCount st k w t + 1)) := by
  simp only [winStep]
  have hm : (match lookupKey st k with
      | some (i, c) => if i = t / w then c else 0
      | none => 0) = curCount st k w t := rfl
  rw [hm, if_pos hcap]

theorem winStep_eq_reject (n w : Nat) (st : RLStore) (k : String) (t : Nat)
    (hcap : ¬curCount st k w t < n) :
    winStep n w (lookupKey st k) t = (false, (t / w, curCount st k w t)) := by
  simp only [winStep]
  have hm : (match lookupKey st k with
      | some (i, c) => if i = t / w then c else 0
      | none => 0) = curCount st k w t := rfl
  rw [hm, if_neg hcap]

theorem rlCheck_admitted (spec : LimitSpec) (st : RLStore) (k : String) (t : Nat)
    (hcap : curCount st k spec.window t < spec.n) :
    rlCheck spec st k t =
      (true, setKey st k (t / spec.window, curCount st k spec.window t + 1)) := by
  unfold rlCheck
  rw [winStep_eq_admitted spec.n spec.window st k t hcap]
  simp

theorem rlCheck_reject (spec : LimitSpec) (st : RLStore) (k : String) (t : Nat)
    (hcap : ¬curCount st k spec.window t < spec.n) :
    rlCheck spec st k t = (false, st) := by
  unfold rlCheck
  rw [winStep_eq_reject spec.n spec.window st k t hcap]
  simp

/-- C2: the rate-limit check wraps the endpoint and is evaluated before the
handler body, so a request whose hostname is missing or invalid — later
answered with 400 — still consumes one unit from both the per-IP and the
global quota (spec-modelled limiter; both quotas here have capacity, so the
request reaches the handler body). -/
theorem C2_limit_before_validation (cfg : Config) (perIP glob : LimitSpec)
    (env : AwxEnv) (st : SrvState) (t : Nat) (ip : String) (hostname? : Option String)
    (hcap1 : curCount st.perIP ip perIP.window t < perIP.n)
    (hcap2 : curCount st.globalStore "global" glob.window t < glob.n)
    (hbad : hostname? = none ∨
      ∃ s, hostname? = some s ∧
        (s.data.isEmpty = true ∨ sanitize_hostname cfg (some s) = none)) :
    (handleProvision cfg perIP glob env st t ip hostname?).2.1 = 400 ∧
    curCount (handleProvision cfg perIP glob env st t ip hostname?).1.perIP ip
        perIP.window t =
      curCount st.perIP ip perIP.window t + 1 ∧
    curCount (handleProvision cfg perIP glob env st t ip hostname?).1.globalStore "global"
        glob.window t =
      curCount st.globalStore "global" glob.window t + 1 := by
  have hr1 := rlCheck_admitted perIP st.perIP ip t hcap1
  have hr2 := rlCheck_admitted glob st.globalStore "global" t hcap2
  have hstatus : (provision cfg env hostname?).1 = 400 := by
    rcases hbad with hn | ⟨s, hsome, hb⟩
    · rw [hn]; rfl
    · rw [hsome]
      rcases hb with he | hsan
      · simp [provision, he]
      · by_cases he : s.data.isEmpty = true
        · simp [provision, he]
        · simp [provision, he, hsan]
  unfold handleProvision
  rw [hr1, hr2]
  refine ⟨by simp [hstatus], by simp [curCount_setKey], by simp [curCount_setKey]⟩

/-- C2 witness: an invalid hostname (`host@bad`) from a fresh state is
answered 400 and still consumes a per-IP unit. -/
theorem C2_witness :
    (handleProvision defaultConfig ⟨1, 300⟩ ⟨100, 3600⟩ happyEnv ⟨[], []⟩ 0 "10.0.0.1"
      (some "host@bad")).2.1 = 400 :=
  (C2_limit_before_validation defaultConfig ⟨1, 300⟩ ⟨100, 3600⟩ happyEnv ⟨[], []⟩ 0
    "10.0.0.1" (some "host@bad") (by decide) (by decide)
    (Or.inr ⟨"host@bad", rfl, Or.inr (by decide)⟩)).1

theorem winAdmits_zero_of_no_req (n w : Nat) (ts : List Nat) :
    ∀ (e : Option (Nat × Nat)) (j : Nat), (∀ t ∈ ts, t / w ≠ j) →
      winAdmits n w ts e j = 0 := by
  induction ts with
  | nil => intro e j _; rfl
  | cons t ts ih =>
    intro e j h
    simp only [winAdmits]
    have hd : decide (t / w = j) = false := by
      simp [h t (List.mem_cons_self t ts)]
    rw [hd]
    simp only [Bool.and_false, Bool.false_eq_true, if_false, Nat.zero_add]
    exact ih _ j fun x hx => h x (List.mem_cons_of_mem t hx)

theorem winAdmits_le_some (n w : Nat) (ts : List Nat) :
    ∀ (i c j : Nat), List.Pairwise (fun a b => a ≤ b) ts → (∀ t ∈ ts, i ≤ t / w) →
      c ≤ n → winAdmits n w ts (some (i, c)) j ≤ n - (if j = i then c else 0) := by
  induction ts with
  | nil =>
    intro i c j _ _ _
    simp [winAdmits]
  | cons t ts ih =>
    intro i c j hsort hge hc
    obtain ⟨hall, hsort2⟩ := List.pairwise_cons.mp hsort
    have hge_t : i ≤ t / w := hge t (List.mem_cons_self t ts)
    have hge2 : ∀ x ∈ ts, t / w ≤ x / w :=
      fun x hx => Nat.div_le_div_right (hall x hx)
    have hgeRest : ∀ x ∈ ts, i ≤ x / w :=
      fun x hx => hge x (List.mem_cons_of_mem t hx)
    simp only [winAdmits]
    by_cases hi : i = t / w
    · by_cases hcn : c < n
      · have hstep : winStep n w (some (i, c)) t = (true, (t / w, c + 1)) := by
          simp [winStep, hi, hcn]
        rw [hstep]
        have hrec := ih (t / w) (c + 1) j hsort2 hge2 hcn
        by_cases hj : j = t / w
        · have hj2 : j = i := hj.trans hi.symm
          rw [if_pos hj] at hrec
          rw [if_pos hj2]
          have hd : (t / w = j) = True := by simp [hj]
          simp [hd]
          omega
        · rw [if_neg hj] at hrec
          have hj2 : ¬j = i := fun hh => hj (hh.trans hi)
          rw [if_neg hj2]
          have hd : (t / w = j) = False := by simp [Ne.symm hj]
          simp [hd]
          omega
      · have hstep : winStep n w (some (i, c)) t = (false, (t / w, c)) := by
          simp [winStep, hi, hcn]
        rw [hstep]
        simpa using ih i c j hsort2 hgeRest hc
    · have hlt : i < t / w := Nat.lt_of_le_of_ne hge_t hi
      by_cases hn0 : 0 < n
      · have hstep : winStep n w (some (i, c)) t = (true, (t / w, 1)) := by
          simp [winStep, hi, hn0]
        rw [hstep]
        by_cases hj : j = t / w
        · have hrec := ih (t / w) 1 j hsort2 hge2 hn0
          rw [if_pos hj] at hrec
          have hj2 : ¬j = i := fun hh => hi (hh.symm.trans hj)
          rw [if_neg hj2]
          have hd : (t / w = j) = True := by simp [hj]
          simp [hd]
          omega
        · have hd : (t / w = j) = False := by simp [Ne.symm hj]
          by_cases hji : j = i
          · have hzero : winAdmits n w ts (some (t / w, 1)) j = 0 :=
              winAdmits_zero_of_no_req n w ts _ j fun x hx => by
                have := hge2 x hx
                omega
            rw [if_pos hji]
            simp [hd, hzero]
          · have hrec := ih (t / w) 1 j hsort2 hge2 hn0
            rw [if_neg hj] at hrec
            rw [if_neg hji]
            simp [hd]
            omega
      · have hstep : winStep n w (some (i, c)) t = (false, (t / w, 0)) := by
          simp [winStep, hi, hn0]
        rw [hstep]
        simpa using ih i c j hsort2 hgeRest hc

theorem winAdmits_n_zero (w : Nat) (ts : List Nat) :
    ∀ (e : Option (Nat × Nat)) (j : Nat), winAdmits 0 w ts e j = 0 := by
  induction ts with
  | nil => intro e j; rfl
  | cons t ts ih =>
    intro e j
    have hstep1 : (winStep 0 w e t).1 = false := by
      simp [winStep]
    simp only [winAdmits, hstep1, Bool.false_and, Bool.false_eq_true, if_false, Nat.zero_add]
    exact ih e j

theorem winAdmits_le_none (n w : Nat) (ts : List Nat) (j : Nat)
    (hsort : List.Pairwise (fun a b => a ≤ b) ts) :
    winAdmits n w ts none j ≤ n := by
  cases ts with
  | nil => simp [winAdmits]
  | cons t ts =>
    obtain ⟨hall, hsort2⟩ := List.pairwise_cons.mp hsort
    have hge2 : ∀ x ∈ ts, t / w ≤ x / w :=
      fun x hx => Nat.div_le_div_right (hall x hx)
    simp only [winAdmits]
    by_cases hn0 : 0 < n
    · have hstep : winStep n w none t = (true, (t / w, 1)) := by
        simp [winStep, hn0]
      rw [hstep]
      have hrec := winAdmits_le_some n w ts (t / w) 1 j hsort2 hge2 hn0
      by_cases hj : j = t / w
      · rw [if_pos hj] at hrec
        have hd : (t / w = j) = True := by simp [hj]
        simp [hd]
        omega
      · rw [if_neg hj] at hrec
        have hd : (t / w = j) = False := by simp [Ne.symm hj]
        simp [hd]
        omega
    · have hn : n = 0 := by omega
      subst hn
      have hstep : winStep 0 w none t = (false, (t / w, 0)) := by
        simp [winStep]
      rw [hstep]
      simp [winAdmits_n_zero]

theorem setKey_single (k : String) (v0 v : Nat × Nat) : setKey [(k, v0)] k v = [(k, v)] := by
  simp [setKey]

theorem handleProvision_admitted (cfg : Config) (perIP glob : LimitSpec) (env : AwxEnv)
    (st : SrvState) (t : Nat) (ip : String) (hn : Option String)
    (h1 : curCount st.perIP ip perIP.window t < perIP.n)
    (h2 : curCount st.globalStore "global" glob.window t < glob.n) :
    handleProvision cfg perIP glob env st t ip hn =
      (⟨setKey st.perIP ip (t / perIP.window, curCount st.perIP ip perIP.window t + 1),
        setKey st.globalStore "global"
          (t / glob.window, curCount st.globalStore "global" glob.window t + 1)⟩,
        (provision cfg env hn).1, (provision cfg env hn).2) := by
  unfold handleProvision
  rw [rlCheck_admitted perIP st.perIP ip t h1, rlCheck_admitted glob st.globalStore "global" t h2]
  simp

theorem handleProvision_reject (cfg : Config) (perIP glob : LimitSpec) (env : AwxEnv)
    (st : SrvState) (t : Nat) (ip : String) (hn : Option String)
    (hfull : ¬curCount st.perIP ip perIP.window t < perIP.n) :
    handleProvision cfg perIP glob env st t ip hn = (st, 429, .rateLimited) := by
  unfold handleProvision
  rw [rlCheck_reject perIP st.perIP ip t hfull]
  simp

theorem runSeq_append (cfg : Config) (perIP glob : LimitSpec) (env : AwxEnv) :
    ∀ (l1 l2 : List Req) (st : SrvState),
      runSeq cfg perIP glob env (l1 ++ l2) st =
        ((runSeq cfg perIP glob env l2 (runSeq cfg perIP glob env l1 st).1).1,
          (runSeq cfg perIP glob env l1 st).2 ++
            (runSeq cfg perIP glob env l2 (runSeq cfg perIP glob env l1 st).1).2) := by
  intro l1
  induction l1 with
  | nil => intro l2 st; simp [runSeq]
  | cons r rs ih =>
    intro l2 st
    simp only [List.cons_append, runSeq, List.append_eq]
    rw [ih]

theorem runSeq_replicate_200 (cfg : Config) (perIP glob : LimitSpec) (env : AwxEnv)
    (t : Nat) (ip : String) (hn : Option String)
    (hstatus : (provision cfg env hn).1 = 200) :
    ∀ (k c d : Nat), c + k ≤ perIP.n → d + k ≤ glob.n →
      runSeq cfg perIP glob env (List.replicate k ⟨t, ip, hn⟩)
        ⟨[(ip, (t / perIP.window, c))], [("global", (t / glob.window, d))]⟩ =
      (⟨[(ip, (t / perIP.window, c + k))], [("global", (t / glob.window, d + k))]⟩,
        List.replicate k 200) := by
  intro k
  induction k with
  | zero =>
    intro c d _ _
    simp [runSeq]
  | succ k ihk =>
    intro c d hcp hdp
    have hcur1 : curCount [(ip, (t / perIP.window, c))] ip perIP.window t = c := by
      simp [curCount, lookupKey, List.find?]
    have hcur2 : curCount [("global", (t / glob.window, d))] "global" glob.window t = d := by
      simp [curCount, lookupKey, List.find?]
    have hstep := handleProvision_admitted cfg perIP glob env
      ⟨[(ip, (t / perIP.window, c))], [("global", (t / glob.window, d))]⟩ t ip hn
      (by rw [hcur1]; omega) (by rw [hcur2]; omega)
    rw [hcur1, hcur2] at hstep
    dsimp only at hstep
    rw [setKey_single, setKey_single] at hstep
    rw [List.replicate_succ]
    simp only [runSeq]
    rw [hstep]
    have hrec := ihk (c + 1) (d + 1) (by omega) (by omega)
    rw [show c + 1 + k = c + (k + 1) by omega, show d + 1 + k = d + (k + 1) by omega] at hrec
    dsimp only
    rw [hrec]
    simp [hstatus, List.replicate_succ]

/-- C3: (spec-modelled fixed-window limiter) for every key and every window,
the counter admits at most `n` requests per window over any monotone request
trace; and concretely, with per-IP limit `nip` (global limit `g > nip` so the
global quota permits), the first `nip` same-client requests inside a window
are admitted (200), the `(nip+1)`-th is rejected with 429, and after the
window rolls over admission resumes (200 again). -/
theorem C3_window_quota (n w : Nat) (ts : List Nat) (j : Nat)
    (nip wip g wg t : Nat) (ip : String)
    (hsort : List.Pairwise (fun a b => a ≤ b) ts)
    (hw : 0 < wip) (hn : 0 < nip) (hg : nip < g) :
    winAdmits n w ts none j ≤ n ∧
    (runSeq templateConfig ⟨nip, wip⟩ ⟨g, wg⟩ happyEnv
      (List.replicate nip ⟨t, ip, some "host1"⟩ ++
        [⟨t, ip, some "host1"⟩, ⟨t + wip, ip, some "host1"⟩])
      ⟨[], []⟩).2 = List.replicate nip 200 ++ [429, 200] := by
  refine ⟨winAdmits_le_none n w ts j hsort, ?_⟩
  have hprov : (provision templateConfig happyEnv (some "host1")).1 = 200 := by decide
  obtain ⟨m, rfl⟩ : ∃ m, nip = m + 1 := ⟨nip - 1, by omega⟩
  have hstep1 : handleProvision templateConfig ⟨m + 1, wip⟩ ⟨g, wg⟩ happyEnv
      ⟨[], []⟩ t ip (some "host1") =
      (⟨[(ip, (t / wip, 1))], [("global", (t / wg, 1))]⟩, 200,
        (provision templateConfig happyEnv (some "host1")).2) := by
    unfold handleProvision
    rw [rlCheck_admitted ⟨m + 1, wip⟩ [] ip t
        (by simp [curCount, lookupKey, List.find?]),
      rlCheck_admitted ⟨g, wg⟩ [] "global" t
        (by simp [curCount, lookupKey, List.find?]; omega)]
    simp [setKey, curCount, lookupKey, List.find?, hprov]
  have hmid := runSeq_replicate_200 templateConfig ⟨m + 1, wip⟩ ⟨g, wg⟩ happyEnv t ip
    (some "host1") hprov m 1 1 (by dsimp; omega) (by dsimp; omega)
  dsimp only at hmid
  have hrej : handleProvision templateConfig ⟨m + 1, wip⟩ ⟨g, wg⟩ happyEnv
      ⟨[(ip, (t / wip, 1 + m))], [("global", (t / wg, 1 + m))]⟩ t ip (some "host1") =
      (⟨[(ip, (t / wip, 1 + m))], [("global", (t / wg, 1 + m))]⟩, 429, .rateLimited) := by
    apply handleProvision_reject
    dsimp only
    simp [curCount, lookupKey, List.find?]
    omega
  have hcap1 : curCount [(ip, (t / wip, 1 + m))] ip wip (t + wip) < m + 1 := by
    have hne : ¬t / wip = (t + wip) / wip := by
      rw [Nat.add_div_right t hw]
      omega
    simp [curCount, lookupKey, List.find?, hne]
  have hcap2 : curCount [("global", (t / wg, 1 + m))] "global" wg (t + wip) < g := by
    simp only [curCount, lookupKey, List.find?, decide_True, Option.some.injEq]
    split
    · omega
    · omega
  have hfin := handleProvision_admitted templateConfig ⟨m + 1, wip⟩ ⟨g, wg⟩ happyEnv
    ⟨[(ip, (t / wip, 1 + m))], [("global", (t / wg, 1 + m))]⟩ (t + wip) ip (some "host1")
    (by dsimp only; exact hcap1) (by dsimp only; exact hcap2)
  rw [List.replicate_succ, List.cons_append]
  simp only [runSeq]
  rw [hstep1]
  dsimp only
  rw [runSeq_append]
  rw [hmid]
  dsimp only
  simp only [runSeq]
  rw [hrej]
  dsimp only
  rw [hfin]
  dsimp only
  simp [hprov, List.replicate_succ]

/-- C3 witness: per-IP limit 1 per 300s, global 100 per 3600s — the second
request inside the window gets 429, the one after the window rolls over is
admitted again. -/
theorem C3_witness :
    winAdmits 1 300 [0, 10, 350] none 0 ≤ 1 ∧
    (runSeq templateConfig ⟨1, 300⟩ ⟨100, 3600⟩ happyEnv
      (List.replicate 1 ⟨0, "10.0.0.1", some "host1"⟩ ++
        [⟨0, "10.0.0.1", some "host1"⟩, ⟨0 + 300, "10.0.0.1", some "host1"⟩])
      ⟨[], []⟩).2 = List.replicate 1 200 ++ [429, 200] :=
  C3_window_quota 1 300 [0, 10, 350] 0 1 300 100 3600 0 "10.0.0.1"
    (by decide) (by decide) (by decide) (by decide)

end AnsibleAgent
